import Mathlib

/-!
Shallow embedding of `double_translator.py`: a push-to-talk speech-to-speech
translation appliance.  The main control loop polls three physical inputs
(record button, direction switch, exit button), drives an audio-capture
callback feeding a FIFO of sample chunks, and swaps a per-direction model
bundle on direction changes.  External collaborators (vosk, ctranslate2,
sounddevice, aplay, GPIO) appear only through their observable effects and
through oracle parameters for the values they return.
-/

namespace DoubleTranslator

/-- The two translation directions, the string values `"en_to_es"` and
`"es_to_en"` used throughout the script. -/
inductive Direction where
  | en_to_es
  | es_to_en
deriving DecidableEq, Repr

/-- `get_translation_direction`: reads the direction switch;
`"es_to_en" if direction_switch.value == 1 else "en_to_es"`. -/
def get_translation_direction (switchValue : Nat) : Direction :=
  if switchValue == 1 then .es_to_en else .en_to_es

/-- Announcement file constant `MODE_EN_ES_FILE`. -/
def MODE_EN_ES_FILE : String := "./en-es-mode-quieter.wav"

/-- Announcement file constant `MODE_ES_EN_FILE`. -/
def MODE_ES_EN_FILE : String := "./es-en-mode-quieter.wav"

/-- Announcement file constant `NO_AUDIO_EN_FILE`. -/
def NO_AUDIO_EN_FILE : String := "./no_audio-en-quieter.wav"

/-- Announcement file constant `NO_AUDIO_ES_FILE`. -/
def NO_AUDIO_ES_FILE : String := "./no_audio-es-quieter.wav"

/-- Announcement file constant `EXIT_FILE`. -/
def EXIT_FILE : String := "./exit1.wav"

/-- The file `play_mode_announcement(direction)` plays:
`MODE_ES_EN_FILE if direction == "es_to_en" else MODE_EN_ES_FILE`. -/
def play_mode_announcement_file (d : Direction) : String :=
  if d = .es_to_en then MODE_ES_EN_FILE else MODE_EN_ES_FILE

/-- The file `play_no_audio(direction)` plays:
`NO_AUDIO_EN_FILE` when `direction == "en_to_es"`, else `NO_AUDIO_ES_FILE`. -/
def play_no_audio_file (d : Direction) : String :=
  if d = .en_to_es then NO_AUDIO_EN_FILE else NO_AUDIO_ES_FILE

/-- Observable side effects of the script, in program order.  `playAudioFile p`
is a call to `play_audio_file(p)` (blocking `aplay` playback, or a reported
skip if the file is missing — that check is internal to the callee);
`loadModels d` is a call to `load_models(d)`; the LED, sleep, stream and
print effects mirror the corresponding statements. -/
inductive Effect where
  | toggleRed
  | redOn
  | redOff
  | greenOn
  | greenOff
  | sleepMs (ms : Nat)
  | playAudioFile (path : String)
  | loadModels (d : Direction)
  | setRecordingFalse
  | stopStream
  | closeStream
  | setExitFlag
  | printExitMsg
  | transcribeCall
  | punctuateCall
  | translateCall
  | speakCall
deriving DecidableEq, Repr

/-- `exit_program` as its sequence of effects: eight `red_led.toggle()` each
followed by `time.sleep(0.25)` (250 ms), then `play_audio_file(EXIT_FILE)`,
then `exit_requested = True`, then the `"Exit button pressed"` print. -/
def exit_program_effects : List Effect :=
  (List.replicate 8 [Effect.toggleRed, Effect.sleepMs 250]).flatten ++
    [Effect.playAudioFile EXIT_FILE, Effect.setExitFlag, Effect.printExitMsg]

/-! ### Model lifecycle (`load_models` / `unload_models`)

The script keeps one global slot per resource
(`vosk_model`, `translator`, `sp_source`, `sp_target`, `piper_voice`,
`piper_config`).  We tag each loaded resource with the direction it was
loaded for; `none` is Python `None`.  `piper_voice`/`piper_config` are plain
path strings, not loaded models, and `unload_models` does not touch them. -/

/-- The global model-holder variables of the script. -/
structure Models where
  vosk_model : Option Direction
  translator : Option Direction
  sp_source : Option Direction
  sp_target : Option Direction
  piper_voice : Option Direction
  piper_config : Option Direction
deriving DecidableEq, Repr

/-- Initial global state: all model holders are `None` (script lines 116-122). -/
def initialModels : Models :=
  { vosk_model := none, translator := none, sp_source := none,
    sp_target := none, piper_voice := none, piper_config := none }

/-- `unload_models()`: sets `vosk_model`, `translator`, `sp_source`,
`sp_target` to `None` and runs `gc.collect()` (the reclamation itself is
external). -/
def unload_models (s : Models) : Models :=
  { s with vosk_model := none, translator := none,
           sp_source := none, sp_target := none }

/-- `load_models(direction)`: first calls `unload_models()`, then assigns the
six globals in source order for the given direction.  This returns the list
of intermediate global states, one per assignment, starting with the state
right after `unload_models()` returns. -/
def load_models_trace (d : Direction) (s : Models) : List Models :=
  let s0 := unload_models s
  let s1 := { s0 with vosk_model := some d }
  let s2 := { s1 with translator := some d }
  let s3 := { s2 with sp_source := some d }
  let s4 := { s3 with sp_target := some d }
  let s5 := { s4 with piper_voice := some d }
  let s6 := { s5 with piper_config := some d }
  [s0, s1, s2, s3, s4, s5, s6]

/-- `load_models(direction)`: the final global state after the call (every
global is overwritten, so the pre-state is immaterial to the result). -/
def load_models (d : Direction) (_s : Models) : Models :=
  { vosk_model := some d, translator := some d, sp_source := some d,
    sp_target := some d, piper_voice := some d, piper_config := some d }

/-- The directions of the resident heavyweight model resources: the four
globals that hold loaded models and that `unload_models` releases
(`piper_voice`/`piper_config` are path strings, not resident models).
A state with more than one ModelSet resident shows more than one
direction here, or duplicates before `dedup`. -/
def residentDirs (s : Models) : List Direction :=
  ([s.vosk_model, s.translator, s.sp_source, s.sp_target].filterMap id).dedup

/-! ### Exit flag

`exit_requested` is initialised to `False`; the only assignment anywhere in
the script is `exit_requested = True` inside `exit_program`.  We model the
flag as the fold of the list of writes performed so far. -/

/-- A write to the global `exit_requested`.  The script contains exactly one
kind: the `exit_requested = True` statement in `exit_program`. -/
inductive ExitWrite where
  | setTrue
deriving DecidableEq, Repr

/-- Value of `exit_requested` after a list of writes, starting from its
initialiser `False`. -/
def exitFlagAfter (ws : List ExitWrite) : Bool :=
  ws.foldl (fun _ w => match w with | .setTrue => true) false

/-! ### Polling loops

Each iteration of a polling loop reads the three inputs; one `Obs` is the
triple of values those reads return during one iteration (the 10 ms sleep
separates iterations).  A loop over a finite observation trace returns
`none` if the trace is exhausted with the loop still running. -/

/-- The input values read during one poll iteration: `exit_requested`,
`record_button.is_active`, and `direction_switch.value`. -/
structure Obs where
  exit : Bool
  button : Bool
  switchValue : Nat
deriving DecidableEq, Repr

/-- Result of `wait_for_button_or_switch_change` /
`wait_for_button_release_or_switch_change`: Python `None`, a new direction
string, or `"exit"`. -/
inductive WaitResult where
  | pyNone
  | dirChanged (d : Direction)
  | exit
deriving DecidableEq, Repr

/-- `wait_for_button_or_switch_change(last_direction)`:
`while not exit_requested:` check the button (return `None` if pressed),
then the switch (return the new direction if changed), then sleep;
on loop exit return `"exit"`. -/
def wait_for_button_or_switch_change (last : Direction) :
    List Obs → Option WaitResult
  | [] => none
  | o :: rest =>
    if o.exit then some .exit
    else if o.button then some .pyNone
    else if get_translation_direction o.switchValue ≠ last then
      some (.dirChanged (get_translation_direction o.switchValue))
    else wait_for_button_or_switch_change last rest

/-- `wait_for_button_release_or_switch_change(last_direction)`:
`while record_button.is_active and not exit_requested:` check the switch
(return the new direction if changed), then sleep; after the loop return
`"exit"` if `exit_requested` else `None`. -/
def wait_for_button_release_or_switch_change (last : Direction) :
    List Obs → Option WaitResult
  | [] => none
  | o :: rest =>
    if o.button && !o.exit then
      if get_translation_direction o.switchValue ≠ last then
        some (.dirChanged (get_translation_direction o.switchValue))
      else wait_for_button_release_or_switch_change last rest
    else if o.exit then some .exit
    else some .pyNone

/-- Result of the inline `AWAITING_PLAYBACK_DECISION` poll loop:
`play` (button pressed, `play_translation = True`), `switched d` (direction
change handled inside the loop), or `exitLoop` (the `while not
exit_requested` condition failed, `play_translation` still `False`). -/
inductive AwaitResult where
  | play
  | switched (d : Direction)
  | exitLoop
deriving DecidableEq, Repr

/-- The inline poll loop after `TRANSLATING` (script lines 333-345): checks
`exit_requested` in the loop condition, then the record button, then the
switch.  The direction-change branch performs its side effects (green LED
off, `load_models`, `play_mode_announcement`) inside the loop before
breaking; the returned effect list records them. -/
def awaiting_loop (cur : Direction) :
    List Obs → Option (AwaitResult × List Effect)
  | [] => none
  | o :: rest =>
    if o.exit then some (.exitLoop, [])
    else if o.button then some (.play, [])
    else if get_translation_direction o.switchValue ≠ cur then
      some (.switched (get_translation_direction o.switchValue),
        [.greenOff,
         .loadModels (get_translation_direction o.switchValue),
         .playAudioFile
           (play_mode_announcement_file (get_translation_direction o.switchValue))])
    else awaiting_loop cur rest

/-- Per-iteration guard under which `wait_for_button_or_switch_change`
keeps looping (no return is taken at this observation). -/
def idleContinues (last : Direction) (o : Obs) : Bool :=
  !o.exit && !o.button && (get_translation_direction o.switchValue == last)

/-- Per-iteration guard under which `wait_for_button_release_or_switch_change`
keeps looping. -/
def recContinues (last : Direction) (o : Obs) : Bool :=
  o.button && !o.exit && (get_translation_direction o.switchValue == last)

/-- Per-iteration guard under which the `AWAITING_PLAYBACK_DECISION` poll
loop keeps looping. -/
def awaitContinues (cur : Direction) (o : Obs) : Bool :=
  !o.exit && !o.button && (get_translation_direction o.switchValue == cur)

/-! ### Main-loop phase functions -/

/-- Where control goes next at the end of a phase of the main loop.
`idle` is the top of the `while not exit_requested` loop (a `continue`);
`exiting` is `break` into the shutdown path; `recording` falls through to
stream setup; `awaiting` reaches the translation-ready poll; `speaking`
reaches `speak(translation)`. -/
inductive NextState where
  | idle
  | recording
  | awaiting
  | speaking
  | exiting
deriving DecidableEq, Repr

/-- Outcome of one phase: the side effects performed, how many times
`transcribe` and `translate` were called, the value of `current_direction`
afterwards, and where control goes next. -/
structure PhaseResult where
  effects : List Effect
  transcribeCalls : Nat
  translateCalls : Nat
  dir : Direction
  next : NextState
deriving DecidableEq, Repr

/-- Python whitespace characters stripped by `str.strip()` (ASCII subset:
space, tab, LF, CR, vertical tab, form feed). -/
def pyIsSpace (c : Char) : Bool :=
  c == ' ' || c == '\t' || c == '\n' || c == '\r' || c == '\x0b' || c == '\x0c'

/-- Python `text.strip()` on the ASCII whitespace set. -/
def pyStrip (s : String) : String :=
  String.mk (((s.toList.dropWhile pyIsSpace).reverse.dropWhile pyIsSpace).reverse)

/-- The drain loop `while not q.empty(): frames.append(q.get())`: `q.get()`
returns chunks in FIFO order, each appended to `frames`. -/
def drainLoop (q : List (List Int)) (frames : List (List Int)) :
    List (List Int) :=
  match q with
  | [] => frames
  | c :: rest => drainLoop rest (frames ++ [c])

/-- `np.concatenate(frames, axis=0) if frames else np.array([], dtype=int16)`. -/
def concatFrames (frames : List (List Int)) : List Int :=
  if frames.isEmpty then [] else frames.flatten

/-- The IDLE dispatch after `wait_for_button_or_switch_change` returns
(script lines 251-258): `if exit_requested or direction_changed == "exit":
break`, `if direction_changed:` load models, play the announcement and
`continue`; otherwise fall through to recording.  `exitFlag` is the value
the re-read of `exit_requested` observes. -/
def idleDispatch (exitFlag : Bool) (w : WaitResult) (cur : Direction) :
    PhaseResult :=
  if exitFlag || w == .exit then
    { effects := [], transcribeCalls := 0, translateCalls := 0,
      dir := cur, next := .exiting }
  else
    match w with
    | .dirChanged d =>
      { effects := [.loadModels d, .playAudioFile (play_mode_announcement_file d)],
        transcribeCalls := 0, translateCalls := 0, dir := d, next := .idle }
    | _ =>
      { effects := [], transcribeCalls := 0, translateCalls := 0,
        dir := cur, next := .recording }

/-- Script lines 293-331, the code that runs after the recording wait ends
and the `finally` block has stopped the stream: break on exit, direction
change (load + announce + `continue`), else drain the queue, concatenate,
and run the empty-audio / empty-text / punctuate-translate branches.
`q` is the FIFO contents at drain time, `tr` the string `transcribe`
returns for this buffer (oracle for the external recognizer). -/
def afterRecording (exitFlag : Bool) (w : WaitResult) (q : List (List Int))
    (cur : Direction) (tr : String) : PhaseResult :=
  if exitFlag || w == .exit then
    { effects := [], transcribeCalls := 0, translateCalls := 0,
      dir := cur, next := .exiting }
  else
    match w with
    | .dirChanged d =>
      { effects := [.loadModels d, .playAudioFile (play_mode_announcement_file d)],
        transcribeCalls := 0, translateCalls := 0, dir := d, next := .idle }
    | _ =>
      let frames := drainLoop q []
      let audio := concatFrames frames
      if audio.length == 0 then
        { effects := [.playAudioFile (play_no_audio_file cur)],
          transcribeCalls := 0, translateCalls := 0, dir := cur, next := .idle }
      else if (pyStrip tr).isEmpty then
        { effects := [.redOn, .transcribeCall, .redOff,
                      .playAudioFile (play_no_audio_file cur)],
          transcribeCalls := 1, translateCalls := 0, dir := cur, next := .idle }
      else
        { effects := [.redOn, .transcribeCall, .redOff, .punctuateCall,
                      .redOn, .translateCall, .redOff, .greenOn],
          transcribeCalls := 1, translateCalls := 1, dir := cur,
          next := .awaiting }

/-- How the attempt to open and start the input stream went.
`ctorFails`: `sd.InputStream(...)` itself raises, so the name `stream` is
never (re)bound by this iteration; `startFails`: the constructor succeeds
and `stream.start()` raises; in both cases the `except` clause only prints.
No producer callback ever fires unless the stream was started. -/
inductive StreamOpen where
  | ok
  | ctorFails
  | startFails
deriving DecidableEq, Repr

/-- A Python exception escaping the main loop (the module-level handler only
catches `KeyboardInterrupt`, so these abort the control loop). -/
inductive PyError where
  | nameError
  | valueError
  | attributeError
deriving DecidableEq, Repr

/-- The whole RECORDING phase, script lines 260-331: fresh queue and
`recording = True`, the stream open/start attempt inside `try/except`,
the wait inside `try`, then the `finally` block
(`recording = False; stream.stop(); stream.close(); red_led.off()`), then
`afterRecording`.  `prevStreamDefined` says whether a previous iteration
ever bound the global `stream`: if not, and the constructor raised,
`stream.stop()` in the `finally` raises `NameError`, which nothing in the
script catches.  `produced` is the chunk list the callback enqueued while
the stream ran (empty unless the open fully succeeded). -/
def recordingPhase (prevStreamDefined : Bool) (op : StreamOpen)
    (exitFlag : Bool) (w : WaitResult) (produced : List (List Int))
    (cur : Direction) (tr : String) : Except PyError PhaseResult :=
  let q := match op with
    | .ok => produced
    | _ => []
  let streamDefined := prevStreamDefined || !(op == .ctorFails)
  if streamDefined then
    let r := afterRecording exitFlag w q cur tr
    .ok { r with effects :=
      [.setRecordingFalse, .stopStream, .closeStream, .redOff] ++ r.effects }
  else
    .error .nameError

/-- The dispatch after the `AWAITING_PLAYBACK_DECISION` poll loop ends
(script lines 346-350): `green_led.off()`, `if exit_requested: break`,
`if not play_translation: continue`, else fall through to `speak`. -/
def awaitingDispatch (exitFlag : Bool) (r : AwaitResult) : NextState :=
  if exitFlag then .exiting
  else
    match r with
    | .play => .speaking
    | _ => .idle

/-! ### Capture handoff: producer callback vs. the `finally` block

The producer callback runs `if recording: q.put(indata.copy())` on the
PortAudio thread; the main thread's `finally` block runs `recording = False`
then `stream.stop()`.  The check and the put are two separate steps, and
the interpreter may switch threads between them, so we model the handoff as
an interleaving of atomic events.  `stream.stop()` (Pa_StopStream) blocks
until any in-flight callback has returned, and after it returns no further
callback fires. -/

/-- Atomic events of the capture handoff.  `cbCheck` is the callback reading
the `recording` flag; `cbPut` is the same callback invocation executing (or
skipping) `q.put` according to the value it read; `clearFlag` is
`recording = False`; `stopDone` is `stream.stop()` returning. -/
inductive CapEv where
  | cbCheck
  | cbPut
  | clearFlag
  | stopDone
deriving DecidableEq, Repr

/-- State of the capture handoff.  `pending` holds the flag value an
in-flight callback read and has not yet acted on.  `lateAppend` records
that some chunk was appended at a moment when the accepting flag was
already cleared; `postStopAppend` records an append after `stream.stop()`
returned. -/
structure CapState where
  recording : Bool
  q : List Nat
  pending : Option Bool
  cleared : Bool
  stopped : Bool
  lateAppend : Bool
  postStopAppend : Bool
deriving DecidableEq, Repr

/-- Initial handoff state for one recording: `recording = True`, empty
queue, no callback in flight. -/
def capInit : CapState :=
  { recording := true, q := [], pending := none, cleared := false,
    stopped := false, lateAppend := false, postStopAppend := false }

/-- One interleaving step; `none` if the event is not enabled.  A callback
may start (`cbCheck`) only while no other invocation is in flight and the
stream is not yet stopped; `stopDone` requires the flag already cleared
(main-thread program order) and no callback in flight (Pa_StopStream joins
it); the put appends exactly when the value read by its check was true. -/
def capStep (s : CapState) : CapEv → Option CapState
  | .cbCheck =>
    if s.stopped || s.pending.isSome then none
    else some { s with pending := some s.recording }
  | .cbPut =>
    match s.pending with
    | none => none
    | some b =>
      some { s with pending := none,
                    q := if b then s.q ++ [s.q.length] else s.q,
                    lateAppend := s.lateAppend || (b && s.cleared),
                    postStopAppend := s.postStopAppend || (b && s.stopped) }
  | .clearFlag =>
    if s.cleared then none
    else some { s with recording := false, cleared := true }
  | .stopDone =>
    if s.stopped || !s.cleared || s.pending.isSome then none
    else some { s with stopped := true }

/-- Run a schedule of handoff events; `none` if some event was not enabled
(the schedule is not a real interleaving). -/
def capRun (s : CapState) : List CapEv → Option CapState
  | [] => some s
  | e :: rest =>
    match capStep s e with
    | none => none
    | some s2 => capRun s2 rest

/-! ### `transcribe` result extraction

`transcribe` builds a recognizer, feeds it the buffer, then runs
`result = json.loads(rec.FinalResult()); return result.get("text", "")`.
We model the text `rec.FinalResult()` returns by its parse: `none` for a
string that is not valid JSON (then `json.loads` raises `ValueError`), or
the parsed value.  `.get` exists only on dicts; on any other value Python
raises `AttributeError`. -/

/-- A JSON value. -/
inductive Json where
  | obj : List (String × Json) → Json
  | str : String → Json
  | arr : List Json → Json
  | num : Int → Json
  | bool : Bool → Json
  | null : Json

/-- `json.loads` on the recognizer's final-result string: raises
`ValueError` on input that is not valid JSON, else returns the parsed
value. -/
def json_loads : Option Json → Except PyError Json
  | none => .error .valueError
  | some j => .ok j

/-- `result.get("text", "")`: on a dict, the value under `"text"` or the
default `""`; on any non-dict value, `.get` does not exist and Python
raises `AttributeError`. -/
def dict_get_text : Json → Except PyError Json
  | .obj fields =>
    match fields.find? (fun p => p.1 == "text") with
    | some p => .ok p.2
    | none => .ok (.str "")
  | _ => .error .attributeError

/-- The result-extraction tail of `transcribe`, as a function of the parse
of the recognizer's final-result string. -/
def transcribe_result (raw : Option Json) : Except PyError Json := do
  let r ← json_loads raw
  dict_get_text r

/-! ## Helper lemmas -/

/-- The drain loop appends the FIFO's chunks, in order, to `frames`. -/
theorem drainLoop_eq_append (q acc : List (List Int)) :
    drainLoop q acc = acc ++ q := by
  induction q generalizing acc with
  | nil => simp [drainLoop]
  | cons c rest ih => simp [drainLoop, ih]

/-- Draining into the initially empty `frames` yields the FIFO contents. -/
theorem drainLoop_nil (q : List (List Int)) : drainLoop q [] = q := by
  simpa using drainLoop_eq_append q []

/-- `pyStrip` of the empty string is empty. -/
theorem pyStrip_empty : pyStrip "" = "" := rfl

/-- Routing of the two no-audio cases after a completed recording: an empty
concatenated buffer, or a recognition result that strips to nothing, both
play the current direction's no-audio file, make no translator call and
return to IDLE. -/
theorem afterRecording_no_audio_cases (cur : Direction) (q : List (List Int))
    (tr : String) (h : q.flatten = [] ∨ pyStrip tr = "") :
    (Effect.playAudioFile (play_no_audio_file cur)) ∈
      (afterRecording false .pyNone q cur tr).effects ∧
    (afterRecording false .pyNone q cur tr).translateCalls = 0 ∧
    (afterRecording false .pyNone q cur tr).next = .idle := by
  by_cases ha : concatFrames q = []
  · have hrec : afterRecording false .pyNone q cur tr =
        { effects := [.playAudioFile (play_no_audio_file cur)],
          transcribeCalls := 0, translateCalls := 0, dir := cur,
          next := .idle } := by
      simp [afterRecording, drainLoop_nil, ha]
    rw [hrec]
    exact ⟨by simp, rfl, rfl⟩
  · have htr : pyStrip tr = "" := by
      rcases h with h | h
      · exact absurd (by simp [concatFrames, h]) ha
      · exact h
    have hrec : afterRecording false .pyNone q cur tr =
        { effects := [.redOn, .transcribeCall, .redOff,
                      .playAudioFile (play_no_audio_file cur)],
          transcribeCalls := 1, translateCalls := 0, dir := cur,
          next := .idle } := by
      simp [afterRecording, drainLoop_nil, ha, htr, String.isEmpty]
    rw [hrec]
    exact ⟨by simp, rfl, rfl⟩

/-! ## Theorems -/

/-- C9: `exit_program` sets the exit flag only after its whole visual/audio
sequence: the effect list toggles the red LED exactly 8 times, each toggle
followed by a 250 ms sleep, then plays the exit sound (a blocking
`play_audio_file` call), and only then sets `exit_requested`; the only
effect after the flag is set is the diagnostic print, so no poll loop can
observe the flag before the roughly two-second toggle sequence plus the
exit-sound playback have finished. -/
theorem c9_exit_flag_set_after_sequence :
    exit_program_effects.count .toggleRed = 8 ∧
    exit_program_effects.count (.sleepMs 250) = 8 ∧
    exit_program_effects.count .setExitFlag = 1 ∧
    exit_program_effects.takeWhile (fun e => !(e == .setExitFlag)) =
      (List.replicate 8 [Effect.toggleRed, Effect.sleepMs 250]).flatten ++
        [Effect.playAudioFile EXIT_FILE] ∧
    exit_program_effects.dropWhile (fun e => !(e == .setExitFlag)) =
      [Effect.setExitFlag, Effect.printExitMsg] := by
  refine ⟨rfl, rfl, rfl, rfl, rfl⟩

/-- C4: `load_models(d)` first runs `unload_models()` (leaving no resident
ModelSet) and only then constructs the new one, so every intermediate
global state during a load has at most one direction's models resident;
and two consecutive `load_models(d)` calls leave a single ModelSet
resident. -/
theorem c4_at_most_one_modelset (d : Direction) (s : Models) :
    (load_models_trace d s).head? = some (unload_models s) ∧
    residentDirs (unload_models s) = [] ∧
    (∀ m ∈ load_models_trace d s, (residentDirs m).length ≤ 1) ∧
    (residentDirs (load_models d (load_models d s))).length = 1 := by
  refine ⟨rfl, rfl, ?_, ?_⟩
  · intro m hm
    simp only [load_models_trace, List.mem_cons, List.not_mem_nil, or_false] at hm
    rcases hm with rfl | rfl | rfl | rfl | rfl | rfl | rfl <;>
      simp [residentDirs, unload_models]
  · simp [residentDirs, load_models]

/-- C5: when the recording wait reports a direction change (and the exit
flag is not set), the `finally` block has stopped and closed the capture
stream, the captured audio is discarded without a recognizer call, the new
direction's models are loaded, its mode announcement plays, and control
returns to IDLE. -/
theorem c5_switch_during_recording_discards (d cur : Direction)
    (q : List (List Int)) (tr : String) :
    recordingPhase true .ok false (.dirChanged d) q cur tr =
      .ok { effects := [.setRecordingFalse, .stopStream, .closeStream, .redOff,
                        .loadModels d,
                        .playAudioFile (play_mode_announcement_file d)],
            transcribeCalls := 0, translateCalls := 0, dir := d,
            next := .idle } := by
  rfl

/-- C7: an empty drained sample buffer, and an empty or whitespace-only
recognition result, both route to the no-audio announcement selected by the
direction current at that moment (`play_no_audio(current_direction)`), and
control returns to IDLE with the translator never called. -/
theorem c7_empty_routes_to_no_audio (cur : Direction) (q : List (List Int))
    (tr : String) (h : q.flatten = [] ∨ pyStrip tr = "") :
    (Effect.playAudioFile (play_no_audio_file cur)) ∈
      (afterRecording false .pyNone q cur tr).effects ∧
    (afterRecording false .pyNone q cur tr).translateCalls = 0 ∧
    (afterRecording false .pyNone q cur tr).next = .idle :=
  afterRecording_no_audio_cases cur q tr h

/-- Witness for C7 at a concrete input: an empty FIFO with a non-empty
recognition oracle still plays the no-audio file for EN→ES and returns to
IDLE without translating. -/
theorem c7_empty_routes_to_no_audio_witness :
    (Effect.playAudioFile (play_no_audio_file .en_to_es)) ∈
      (afterRecording false .pyNone [] .en_to_es "hola").effects ∧
    (afterRecording false .pyNone [] .en_to_es "hola").translateCalls = 0 ∧
    (afterRecording false .pyNone [] .en_to_es "hola").next = .idle :=
  c7_empty_routes_to_no_audio .en_to_es [] "hola" (Or.inl rfl)

/-- C1: exit takes precedence over a direction change at every site from
which the SWITCHING_DIRECTION transition is reachable.  When the exit flag
is observable at a poll iteration, each of the three waiting loops (IDLE
wait, RECORDING wait, AWAITING_PLAYBACK_DECISION inline loop) resolves to
its exit outcome at that iteration with no model load or announcement; and
when the flag is set at the post-wait re-read, the IDLE and RECORDING
dispatches break to the shutdown path without loading models, as does the
post-loop check of the playback wait.  So the SWITCHING_DIRECTION
transition (load new ModelSet + mode announcement) is never taken while
the exit flag is set. -/
theorem c1_exit_precedes_switch (last cur : Direction) (o : Obs)
    (rest : List Obs) (w : WaitResult) (q : List (List Int)) (tr : String)
    (r : AwaitResult) (ho : o.exit = true) :
    wait_for_button_or_switch_change last (o :: rest) = some .exit ∧
    wait_for_button_release_or_switch_change last (o :: rest) = some .exit ∧
    awaiting_loop cur (o :: rest) = some (.exitLoop, []) ∧
    (idleDispatch true w cur).next = .exiting ∧
    (∀ d, Effect.loadModels d ∉ (idleDispatch true w cur).effects) ∧
    (afterRecording true w q cur tr).next = .exiting ∧
    (∀ d, Effect.loadModels d ∉ (afterRecording true w q cur tr).effects) ∧
    awaitingDispatch true r = .exiting := by
  refine ⟨?_, ?_, ?_, rfl, ?_, rfl, ?_, rfl⟩
  · simp [wait_for_button_or_switch_change, ho]
  · simp [wait_for_button_release_or_switch_change, ho]
  · simp [awaiting_loop, ho]
  · intro d
    simp [idleDispatch]
  · intro d
    simp [afterRecording]

/-- Witness for C1 at a concrete input: the flag observable while the
switch simultaneously shows the other direction and the button is held. -/
theorem c1_exit_precedes_switch_witness :
    wait_for_button_or_switch_change .en_to_es
        [{ exit := true, button := true, switchValue := 1 }] = some .exit ∧
    wait_for_button_release_or_switch_change .en_to_es
        [{ exit := true, button := true, switchValue := 1 }] = some .exit ∧
    awaiting_loop .en_to_es
        [{ exit := true, button := true, switchValue := 1 }] =
      some (.exitLoop, []) ∧
    (idleDispatch true (.dirChanged .es_to_en) .en_to_es).next = .exiting ∧
    (∀ d, Effect.loadModels d ∉
      (idleDispatch true (.dirChanged .es_to_en) .en_to_es).effects) ∧
    (afterRecording true (.dirChanged .es_to_en) [[1]] .en_to_es "hi").next
      = .exiting ∧
    (∀ d, Effect.loadModels d ∉
      (afterRecording true (.dirChanged .es_to_en) [[1]] .en_to_es "hi").effects) ∧
    awaitingDispatch true (.switched .es_to_en) = .exiting :=
  c1_exit_precedes_switch .en_to_es .en_to_es
    { exit := true, button := true, switchValue := 1 } []
    (.dirChanged .es_to_en) [[1]] "hi" (.switched .es_to_en) rfl

/-- C2 (code bug): on the very first recording attempt, if
`sd.InputStream(...)` itself raises, the `except` clause only prints and the
`finally` block then evaluates `stream.stop()` with the global `stream`
never having been bound — `NameError`, which the script does not catch, so
the control loop is aborted instead of proceeding to the no-audio
announcement.  By contrast, when the constructor succeeds and only
`stream.start()` raises (or `stream` survives from an earlier iteration),
the attempt does proceed as the claimed empty-audio outcome: no recognizer
call, the current direction's no-audio announcement, back to IDLE. -/
theorem c2_capture_start_failure (cur : Direction) (tr : String) :
    recordingPhase false .ctorFails false .pyNone [] cur tr =
      .error .nameError ∧
    recordingPhase false .startFails false .pyNone [] cur tr =
      .ok { effects := [.setRecordingFalse, .stopStream, .closeStream, .redOff,
                        .playAudioFile (play_no_audio_file cur)],
            transcribeCalls := 0, translateCalls := 0, dir := cur,
            next := .idle } := by
  exact ⟨rfl, rfl⟩

/-- C10 counterexample: a recognizer final result whose text is not valid
JSON makes `json.loads` raise `ValueError` inside `transcribe` — so a
malformed result does raise, rather than being routed to the no-audio
branch as the claim states. -/
theorem c10_counterexample : transcribe_result none = .error .valueError :=
  rfl

/-- C10 amended: whenever the recognizer's final result parses as a JSON
object lacking a `"text"` field, `transcribe` returns the empty string
without raising, and the empty string is routed to the same no-audio branch
as an empty transcription (no translator call, the current direction's
no-audio announcement, back to IDLE); a final result that is not a JSON
object, however, raises (`ValueError` if unparseable, `AttributeError` if
parsed but not a dict). -/
theorem c10_missing_text_field (fields : List (String × Json))
    (cur : Direction) (q : List (List Int))
    (h : fields.find? (fun p => p.1 == "text") = none) :
    transcribe_result (some (.obj fields)) = .ok (.str "") ∧
    (Effect.playAudioFile (play_no_audio_file cur)) ∈
      (afterRecording false .pyNone q cur "").effects ∧
    (afterRecording false .pyNone q cur "").translateCalls = 0 ∧
    (afterRecording false .pyNone q cur "").next = .idle := by
  have h1 : transcribe_result (some (.obj fields)) = .ok (.str "") := by
    show dict_get_text (.obj fields) = .ok (.str "")
    simp [dict_get_text, h]
  have h2 := afterRecording_no_audio_cases cur q "" (Or.inr pyStrip_empty)
  exact ⟨h1, h2.1, h2.2.1, h2.2.2⟩

/-- Witness for C10 at a concrete input: a result object carrying only a
`"confidence"` field. -/
theorem c10_missing_text_field_witness :
    transcribe_result (some (.obj [("confidence", .num 3)])) = .ok (.str "") ∧
    (Effect.playAudioFile (play_no_audio_file .es_to_en)) ∈
      (afterRecording false .pyNone [[1, 2]] .es_to_en "").effects ∧
    (afterRecording false .pyNone [[1, 2]] .es_to_en "").translateCalls = 0 ∧
    (afterRecording false .pyNone [[1, 2]] .es_to_en "").next = .idle :=
  c10_missing_text_field [("confidence", .num 3)] .es_to_en [[1, 2]] rfl

/-- Invariant of the capture handoff: no append has happened after
`stream.stop()` returned; once the flag is cleared it stays cleared (so
later callback checks read `False`); and a stopped stream has no callback
in flight and was stopped only after the clear. -/
def capInv (s : CapState) : Prop :=
  s.postStopAppend = false ∧
  (s.cleared = true → s.recording = false) ∧
  (s.stopped = true → s.pending = none ∧ s.cleared = true)

/-- One enabled handoff event preserves the invariant. -/
theorem capStep_inv {s s2 : CapState} {e : CapEv}
    (h : capStep s e = some s2) (hi : capInv s) : capInv s2 := by
  obtain ⟨hpsa, hcr, hstop⟩ := hi
  cases e with
  | cbCheck =>
    by_cases hc : s.stopped || s.pending.isSome
    · simp [capStep, hc] at h
    · simp [capStep, hc] at h
      subst h
      simp only [Bool.or_eq_true, Option.isSome_iff_exists, not_or] at hc
      exact ⟨hpsa, hcr, fun hs => absurd hs (by simpa using hc.1)⟩
  | cbPut =>
    match hp : s.pending with
    | none => simp [capStep, hp] at h
    | some b =>
      simp [capStep, hp] at h
      subst h
      have hns : s.stopped = false := by
        by_contra hs
        have := (hstop (by simpa using hs)).1
        simp [hp] at this
      refine ⟨by simp [hpsa, hns], hcr, fun hs => by simp [hns] at hs⟩
  | clearFlag =>
    by_cases hc : s.cleared
    · simp [capStep, hc] at h
    · simp [capStep, hc] at h
      subst h
      refine ⟨hpsa, fun _ => rfl, fun hs => absurd (hstop hs).2 (by simpa using hc)⟩
  | stopDone =>
    by_cases hc : s.stopped || !s.cleared || s.pending.isSome
    · simp [capStep, hc] at h
    · simp [capStep, hc] at h
      subst h
      refine ⟨hpsa, hcr, fun _ => ⟨?_, ?_⟩⟩
      · show s.pending = none
        cases hp : s.pending with
        | none => rfl
        | some b => rw [hp] at hc; simp at hc
      · show s.cleared = true
        cases hcl : s.cleared with
        | true => rfl
        | false => rw [hcl] at hc; simp at hc

/-- Running any schedule preserves the invariant. -/
theorem capRun_inv {evs : List CapEv} {s s2 : CapState}
    (h : capRun s evs = some s2) (hi : capInv s) : capInv s2 := by
  induction evs generalizing s with
  | nil => simp [capRun] at h; exact h ▸ hi
  | cons e rest ih =>
    simp only [capRun] at h
    match hs : capStep s e with
    | none => rw [hs] at h; exact absurd h (by simp)
    | some s1 =>
      rw [hs] at h
      exact ih h (capStep_inv hs hi)

/-- C3 counterexample: the interleaving in which the producer callback
reads `recording = True`, the main thread's `finally` block then runs
`recording = False`, and the callback only afterwards executes its
`q.put`, is an enabled schedule of the handoff — and it appends a chunk
after the accepting flag was cleared (`lateAppend`), refuting the claim
that once the flag is cleared no further chunk is ever appended. -/
theorem c3_counterexample :
    capRun capInit [.cbCheck, .clearFlag, .cbPut, .stopDone] =
      some { recording := false, q := [0], pending := none, cleared := true,
             stopped := true, lateAppend := true, postStopAppend := false } :=
  rfl

/-- C3 amended: in every enabled interleaving of the capture handoff, once
the accepting flag is cleared it stays cleared (so any callback checking it
afterwards reads `False` and appends nothing), and no chunk is ever
appended after `stream.stop()` has returned — after the stop the queue is
fixed, so the drain sees a fixed queue.  What the original claim wrongly
excluded is a callback that read the flag before the clear appending one
chunk after the clear but before the stop (see the counterexample). -/
theorem c3_no_append_after_stop (evs : List CapEv) (s : CapState)
    (h : capRun capInit evs = some s) :
    s.postStopAppend = false ∧
    (s.cleared = true → s.recording = false) ∧
    (s.stopped = true → ∀ more s2, capRun s more = some s2 → s2.q = s.q) := by
  have hinv : capInv s := capRun_inv h (by simp [capInv, capInit])
  obtain ⟨hpsa, hcr, hstop⟩ := hinv
  refine ⟨hpsa, hcr, fun hs more s2 h2 => ?_⟩
  obtain ⟨hpend, hclear⟩ := hstop hs
  match more with
  | [] =>
    simp [capRun] at h2
    rw [h2]
  | e :: rest =>
    exfalso
    have hnone : capStep s e = none := by
      cases e <;> simp [capStep, hs, hpend, hclear]
    simp [capRun, hnone] at h2

/-- Witness for C3's amended theorem at a concrete schedule: clear, then
stop, with no callback in flight. -/
theorem c3_no_append_after_stop_witness :
    ({ recording := false, q := [], pending := none, cleared := true,
       stopped := true, lateAppend := false,
       postStopAppend := false } : CapState).postStopAppend = false ∧
    (({ recording := false, q := [], pending := none, cleared := true,
        stopped := true, lateAppend := false,
        postStopAppend := false } : CapState).cleared = true →
      ({ recording := false, q := [], pending := none, cleared := true,
         stopped := true, lateAppend := false,
         postStopAppend := false } : CapState).recording = false) ∧
    (({ recording := false, q := [], pending := none, cleared := true,
        stopped := true, lateAppend := false,
        postStopAppend := false } : CapState).stopped = true →
      ∀ more s2,
        capRun { recording := false, q := [], pending := none, cleared := true,
                 stopped := true, lateAppend := false,
                 postStopAppend := false } more = some s2 →
        s2.q = ({ recording := false, q := [], pending := none, cleared := true,
                  stopped := true, lateAppend := false,
                  postStopAppend := false } : CapState).q) :=
  c3_no_append_after_stop [.clearFlag, .stopDone] _ rfl

/-- Chunk `i` of a flattened chunk list occupies exactly the segment of the
output that starts right after the samples of the chunks before it. -/
theorem flatten_segment : ∀ (q : List (List Int)) (i : Nat) (hi : i < q.length),
    ((q.flatten).drop (((q.take i).map List.length).sum)).take
        (q.get ⟨i, hi⟩).length = q.get ⟨i, hi⟩
  | c :: rest, 0, _ => by
    simpa using List.take_left c rest.flatten
  | c :: rest, i + 1, hi => by
    have ih := flatten_segment rest i (by simpa using hi)
    simpa [List.drop_append] using ih

/-- `concatFrames` is flattening (`np.concatenate` of no frames is the
empty buffer). -/
theorem concatFrames_eq_flatten (q : List (List Int)) :
    concatFrames q = q.flatten := by
  cases q with
  | nil => rfl
  | cons c rest => rfl

/-- C6: for a recording with at least one captured chunk, the drain loop
returns the FIFO contents unchanged (producer arrival order), the
concatenated buffer's sample count is the sum of the chunk lengths, and
each chunk occupies its in-order segment of the concatenated buffer. -/
theorem c6_drain_concat_order (q : List (List Int)) (h : q ≠ []) :
    drainLoop q [] = q ∧
    (concatFrames (drainLoop q [])).length = (q.map List.length).sum ∧
    ∀ i (hi : i < q.length),
      ((concatFrames (drainLoop q [])).drop
          (((q.take i).map List.length).sum)).take (q.get ⟨i, hi⟩).length
        = q.get ⟨i, hi⟩ := by
  have hq : drainLoop q [] = q := drainLoop_nil q
  refine ⟨hq, ?_, ?_⟩
  · rw [hq, concatFrames_eq_flatten]
    simp
  · intro i hi
    rw [hq, concatFrames_eq_flatten]
    exact flatten_segment q i hi

/-- Witness for C6 at a concrete recording of two chunks. -/
theorem c6_drain_concat_order_witness :
    drainLoop [[5], [7, 9]] [] = [[5], [7, 9]] ∧
    (concatFrames (drainLoop [[5], [7, 9]] [])).length =
      (([[5], [7, 9]] : List (List Int)).map List.length).sum ∧
    ((concatFrames (drainLoop [[5], [7, 9]] [])).drop
        ((([[5], [7, 9]] : List (List Int)).take 1).map List.length).sum).take 2
      = [7, 9] := by
  have h := c6_drain_concat_order [[5], [7, 9]] (by simp)
  exact ⟨h.1, h.2.1, h.2.2 1 (by simp)⟩

/-- Appending further writes never clears the exit flag: the script's only
write to `exit_requested` is the `True` assignment in `exit_program`. -/
theorem exitFlagAfter_append (ws more : List ExitWrite)
    (h : exitFlagAfter ws = true) : exitFlagAfter (ws ++ more) = true := by
  show ((ws ++ more).foldl (fun _ w => match w with | .setTrue => true) false)
      = true
  rw [List.foldl_append]
  rw [show (ws.foldl (fun _ w => match w with | .setTrue => true) false) = true
      from h]
  induction more with
  | nil => rfl
  | cons m rest ih => cases m; exact ih

/-- A run of the IDLE wait loop that has consumed only non-resolving
iterations resolves to `"exit"` at the first observation with the exit flag
set. -/
theorem wait1_exit_at_first (last : Direction) (pre : List Obs) (o : Obs)
    (rest : List Obs) (hpre : ∀ p ∈ pre, idleContinues last p = true)
    (ho : o.exit = true) :
    wait_for_button_or_switch_change last (pre ++ o :: rest) = some .exit := by
  induction pre with
  | nil => simp [wait_for_button_or_switch_change, ho]
  | cons p ps ih =>
    obtain ⟨he, hb, hd⟩ : p.exit = false ∧ p.button = false ∧
        get_translation_direction p.switchValue = last := by
      simpa [idleContinues, and_assoc] using hpre p (List.mem_cons_self p ps)
    have hps : ∀ x ∈ ps, idleContinues last x = true :=
      fun x hx => hpre x (List.mem_cons_of_mem p hx)
    simpa [wait_for_button_or_switch_change, he, hb, hd] using ih hps

/-- Same for the RECORDING wait loop (button held, flag then set). -/
theorem wait2_exit_at_first (last : Direction) (pre : List Obs) (o : Obs)
    (rest : List Obs) (hpre : ∀ p ∈ pre, recContinues last p = true)
    (ho : o.exit = true) :
    wait_for_button_release_or_switch_change last (pre ++ o :: rest)
      = some .exit := by
  induction pre with
  | nil => simp [wait_for_button_release_or_switch_change, ho]
  | cons p ps ih =>
    obtain ⟨hb, he, hd⟩ : p.button = true ∧ p.exit = false ∧
        get_translation_direction p.switchValue = last := by
      simpa [recContinues, and_assoc] using hpre p (List.mem_cons_self p ps)
    have hps : ∀ x ∈ ps, recContinues last x = true :=
      fun x hx => hpre x (List.mem_cons_of_mem p hx)
    simpa [wait_for_button_release_or_switch_change, hb, he, hd] using ih hps

/-- Same for the playback-decision wait loop. -/
theorem wait3_exit_at_first (cur : Direction) (pre : List Obs) (o : Obs)
    (rest : List Obs) (hpre : ∀ p ∈ pre, awaitContinues cur p = true)
    (ho : o.exit = true) :
    awaiting_loop cur (pre ++ o :: rest) = some (.exitLoop, []) := by
  induction pre with
  | nil => simp [awaiting_loop, ho]
  | cons p ps ih =>
    obtain ⟨he, hb, hd⟩ : p.exit = false ∧ p.button = false ∧
        get_translation_direction p.switchValue = cur := by
      simpa [awaitContinues, and_assoc] using hpre p (List.mem_cons_self p ps)
    have hps : ∀ x ∈ ps, awaitContinues cur x = true :=
      fun x hx => hpre x (List.mem_cons_of_mem p hx)
    simpa [awaiting_loop, he, hb, hd] using ih hps

/-- C8: the exit flag is monotonic — its only write anywhere in the script
is `exit_requested = True`, so appending any further writes keeps it set —
and once it is set every polling wait loop resolves to its exit outcome at
the first iteration that observes it (one further loop iteration): the
IDLE and RECORDING waits return `"exit"` and the playback-decision loop
ends with `play_translation = False` and no further effects. -/
theorem c8_exit_monotonic_and_prompt (last cur : Direction)
    (ws more : List ExitWrite) (pre1 pre2 pre3 rest1 rest2 rest3 : List Obs)
    (o1 o2 o3 : Obs) (hw : exitFlagAfter ws = true)
    (ho1 : o1.exit = true) (ho2 : o2.exit = true) (ho3 : o3.exit = true)
    (h1 : ∀ p ∈ pre1, idleContinues last p = true)
    (h2 : ∀ p ∈ pre2, recContinues last p = true)
    (h3 : ∀ p ∈ pre3, awaitContinues cur p = true) :
    exitFlagAfter (ws ++ more) = true ∧
    wait_for_button_or_switch_change last (pre1 ++ o1 :: rest1)
      = some .exit ∧
    wait_for_button_release_or_switch_change last (pre2 ++ o2 :: rest2)
      = some .exit ∧
    awaiting_loop cur (pre3 ++ o3 :: rest3) = some (.exitLoop, []) :=
  ⟨exitFlagAfter_append ws more hw,
   wait1_exit_at_first last pre1 o1 rest1 h1 ho1,
   wait2_exit_at_first last pre2 o2 rest2 h2 ho2,
   wait3_exit_at_first cur pre3 o3 rest3 h3 ho3⟩

/-- Witness for C8 at concrete traces: the flag set by one write, and each
loop given one non-resolving iteration followed by the flag observation. -/
theorem c8_exit_monotonic_and_prompt_witness :
    exitFlagAfter ([.setTrue] ++ [.setTrue]) = true ∧
    wait_for_button_or_switch_change .en_to_es
        ([{ exit := false, button := false, switchValue := 0 }] ++
          { exit := true, button := false, switchValue := 0 } :: [])
      = some .exit ∧
    wait_for_button_release_or_switch_change .en_to_es
        ([{ exit := false, button := true, switchValue := 0 }] ++
          { exit := true, button := true, switchValue := 0 } :: [])
      = some .exit ∧
    awaiting_loop .en_to_es
        ([{ exit := false, button := false, switchValue := 0 }] ++
          { exit := true, button := false, switchValue := 0 } :: [])
      = some (.exitLoop, []) :=
  c8_exit_monotonic_and_prompt .en_to_es .en_to_es [.setTrue] [.setTrue]
    [{ exit := false, button := false, switchValue := 0 }]
    [{ exit := false, button := true, switchValue := 0 }]
    [{ exit := false, button := false, switchValue := 0 }] [] [] []
    { exit := true, button := false, switchValue := 0 }
    { exit := true, button := true, switchValue := 0 }
    { exit := true, button := false, switchValue := 0 }
    rfl rfl rfl rfl (by intro p hp; simp at hp; subst hp; rfl)
    (by intro p hp; simp at hp; subst hp; rfl)
    (by intro p hp; simp at hp; subst hp; rfl)

end DoubleTranslator
